import Mathlib

/-!
Shallow embedding of the credential validation and identity resolution layer
(crates/collab/src/auth.rs): the `validate_header` middleware, the
`is_valid_github_login` validator, the `synthetic_github_user_id` generator
(SHA-256 based) and `get_or_create_user_for_trusted_login`, together with a
model of the identity store and of the external verification client.
-/

namespace Auth

/-! ### String helpers mirroring the Rust standard library -/

/-- `str::split_whitespace` tokenizer core: walks the character list keeping an
accumulator of the current (reversed) token. -/
def tokenize : List Char → List Char → List String
  | [], acc => if acc.isEmpty then [] else [String.mk acc.reverse]
  | c :: cs, acc =>
    if c.isWhitespace then
      if acc.isEmpty then tokenize cs [] else String.mk acc.reverse :: tokenize cs []
    else tokenize cs (c :: acc)

/-- Model of Rust `str::split_whitespace`: the list of maximal non-whitespace
runs of the string (ASCII whitespace; the claims do not involve exotic
Unicode whitespace). -/
def splitWhitespace (s : String) : List String :=
  tokenize s.toList []

/-- Model of Rust `str::trim`: drop whitespace from both ends. -/
def rustTrim (s : String) : String :=
  String.mk (((s.toList.dropWhile Char.isWhitespace).reverse.dropWhile
    Char.isWhitespace).reverse)

/-- Model of Rust `str::to_ascii_lowercase`: `Char.toLower` maps exactly the
ASCII uppercase letters, as Rust does. -/
def toAsciiLower (s : String) : String :=
  String.mk (s.toList.map Char.toLower)

/-- Model of Rust `str::strip_prefix`: `some` of the remainder when `p` is a
prefix of `s`, otherwise `none`. -/
def stripMarker (p s : String) : Option String :=
  if p.toList.isPrefixOf s.toList then some (String.mk (s.toList.drop p.toList.length))
  else none

/-- Model of Rust `i32::from_str` (`first.parse::<i32>()`): optional sign,
one or more ASCII digits, value within the `i32` range. -/
def parse_i32 (s : String) : Option Int :=
  let cs := s.toList
  let signAndDigits : Int × List Char :=
    match cs with
    | '+' :: rest => (1, rest)
    | '-' :: rest => (-1, rest)
    | _ => (1, cs)
  let sign := signAndDigits.1
  let ds := signAndDigits.2
  if ds.isEmpty then none
  else if ds.all Char.isDigit then
    let n : Nat := ds.foldl (fun a c => a * 10 + (c.toNat - 48)) 0
    let v : Int := sign * n
    if -2147483648 ≤ v ∧ v ≤ 2147483647 then some v else none
  else none

/-- UTF-8 encoded size of one character, as in Rust `str::len` accounting. -/
def charUtf8Size (c : Char) : Nat :=
  if c.toNat < 128 then 1
  else if c.toNat < 2048 then 2
  else if c.toNat < 65536 then 3
  else 4

/-- Model of Rust `str::len`: number of UTF-8 bytes. -/
def utf8Len (s : String) : Nat :=
  (s.toList.map charUtf8Size).sum

/-! ### `is_valid_github_login` (auth.rs lines 123-138) -/

/-- Translation of `is_valid_github_login`: at most 39 bytes, non-empty,
first character ASCII alphanumeric, remaining characters ASCII alphanumeric
or hyphen. -/
def is_valid_github_login (github_login : String) : Bool :=
  if utf8Len github_login > 39 then false
  else
    match github_login.toList with
    | [] => false
    | first_char :: rest =>
      if !first_char.isAlphanum then false
      else rest.all (fun character => character.isAlphanum || character == '-')

/-! ### SHA-256 (the `sha2::Sha256::digest` call in `synthetic_github_user_id`),
modelled on `Nat` with explicit reduction modulo `2^32`. -/

/-- Truncate to a 32-bit word. -/
def w32 (n : Nat) : Nat := n % 4294967296

/-- Rotate the 32-bit word `x` right by `n` positions. -/
def rotr (n x : Nat) : Nat := w32 ((x >>> n) ||| (x <<< (32 - n)))

/-- UTF-8 encoding of one character. -/
def charUtf8Bytes (c : Char) : List Nat :=
  let n := c.toNat
  if n < 128 then [n]
  else if n < 2048 then [192 + n / 64, 128 + n % 64]
  else if n < 65536 then [224 + n / 4096, 128 + (n / 64) % 64, 128 + n % 64]
  else [240 + n / 262144, 128 + (n / 4096) % 64, 128 + (n / 64) % 64, 128 + n % 64]

/-- UTF-8 byte sequence of a string (the bytes Rust hashes). -/
def utf8Bytes (s : String) : List Nat :=
  (s.toList.map charUtf8Bytes).flatten

/-- `k` bytes of `n`, big-endian. -/
def beBytes : Nat → Nat → List Nat
  | 0, _ => []
  | k + 1, n => beBytes k (n / 256) ++ [n % 256]

/-- SHA-256 padding: append `0x80`, zeros, and the 64-bit big-endian bit length,
reaching a multiple of 64 bytes. -/
def padMessage (msg : List Nat) : List Nat :=
  let len := msg.length
  let zeros := (64 - (len + 9) % 64) % 64
  msg ++ [128] ++ List.replicate zeros 0 ++ beBytes 8 (len * 8)

/-- Group a block's bytes into big-endian 32-bit words. -/
def toWords : List Nat → List Nat
  | b0 :: b1 :: b2 :: b3 :: rest =>
    (((b0 * 256 + b1) * 256 + b2) * 256 + b3) :: toWords rest
  | _ => []

def sigma0 (x : Nat) : Nat := rotr 7 x ^^^ rotr 18 x ^^^ (x >>> 3)

def sigma1 (x : Nat) : Nat := rotr 17 x ^^^ rotr 19 x ^^^ (x >>> 10)

def bigSigma0 (x : Nat) : Nat := rotr 2 x ^^^ rotr 13 x ^^^ rotr 22 x

def bigSigma1 (x : Nat) : Nat := rotr 6 x ^^^ rotr 11 x ^^^ rotr 25 x

def chFn (x y z : Nat) : Nat := (x &&& y) ^^^ ((x ^^^ 4294967295) &&& z)

def majFn (x y z : Nat) : Nat := (x &&& y) ^^^ (x &&& z) ^^^ (y &&& z)

/-- Extend the 16-word message schedule by `n` further words. -/
def extendWords : Nat → List Nat → List Nat
  | 0, ws => ws
  | n + 1, ws =>
    let i := ws.length
    let wNew := w32 (ws.getD (i - 16) 0 + sigma0 (ws.getD (i - 15) 0) +
      ws.getD (i - 7) 0 + sigma1 (ws.getD (i - 2) 0))
    extendWords n (ws ++ [wNew])

/-- The sixty-four round constants of FIPS 180-4 (written in decimal). -/
def shaK : List Nat :=
  [1116352408, 1899447441, 3049323471, 3921009573, 961987163,
   1508970993, 2453635748, 2870763221, 3624381080, 310598401,
   607225278, 1426881987, 1925078388, 2162078206, 2614888103,
   3248222580, 3835390401, 4022224774, 264347078, 604807628,
   770255983, 1249150122, 1555081692, 1996064986, 2554220882,
   2821834349, 2952996808, 3210313671, 3336571891, 3584528711,
   113926993, 338241895, 666307205, 773529912, 1294757372,
   1396182291, 1695183700, 1986661051, 2177026350, 2456956037,
   2730485921, 2820302411, 3259730800, 3345764771, 3516065817,
   3600352804, 4094571909, 275423344, 430227734, 506948616,
   659060556, 883997877, 958139571, 1322822218, 1537002063,
   1747873779, 1955562222, 2024104815, 2227730452, 2361852424,
   2428436474, 2756734187, 3204031479, 3329325298]

/-- The eight initial hash words of FIPS 180-4 (written in decimal). -/
def shaInit : List Nat :=
  [1779033703, 3144134277, 1013904242, 2773480762,
   1359893119, 2600822924, 528734635, 1541459225]

/-- The eight working variables of the compression function. -/
structure ShaState where
  a : Nat
  b : Nat
  c : Nat
  d : Nat
  e : Nat
  f : Nat
  g : Nat
  h : Nat
deriving DecidableEq

/-- One compression round; `kw` is the round constant plus the schedule word,
already reduced mod `2^32`. -/
def compressStep (st : ShaState) (kw : Nat) : ShaState :=
  let t1 := w32 (st.h + bigSigma1 st.e + chFn st.e st.f st.g + kw)
  let t2 := w32 (bigSigma0 st.a + majFn st.a st.b st.c)
  { a := w32 (t1 + t2), b := st.a, c := st.b, d := st.c,
    e := w32 (st.d + t1), f := st.e, g := st.f, h := st.g }

/-- Process one 64-byte block, updating the eight hash words. -/
def processBlock (hs : List Nat) (block : List Nat) : List Nat :=
  let ws := extendWords 48 (toWords block)
  let st0 : ShaState :=
    { a := hs.getD 0 0, b := hs.getD 1 0, c := hs.getD 2 0, d := hs.getD 3 0,
      e := hs.getD 4 0, f := hs.getD 5 0, g := hs.getD 6 0, h := hs.getD 7 0 }
  let st := (List.zipWith (fun k w => w32 (k + w)) shaK ws).foldl compressStep st0
  [w32 (hs.getD 0 0 + st.a), w32 (hs.getD 1 0 + st.b), w32 (hs.getD 2 0 + st.c),
   w32 (hs.getD 3 0 + st.d), w32 (hs.getD 4 0 + st.e), w32 (hs.getD 5 0 + st.f),
   w32 (hs.getD 6 0 + st.g), w32 (hs.getD 7 0 + st.h)]

/-- Split into 64-byte blocks; the fuel argument (instantiated with the list
length) makes the recursion structural. -/
def toBlocks : Nat → List Nat → List (List Nat)
  | 0, _ => []
  | _, [] => []
  | fuel + 1, l => l.take 64 :: toBlocks fuel (l.drop 64)

/-- SHA-256 digest of a byte sequence, as 32 bytes. -/
def sha256Bytes (msg : List Nat) : List Nat :=
  let padded := padMessage msg
  let hs := (toBlocks padded.length padded).foldl processBlock shaInit
  (hs.map (beBytes 4)).flatten

/-- SHA-256 digest of a string's UTF-8 bytes (`sha2::Sha256::digest`). -/
def sha256 (s : String) : List Nat :=
  sha256Bytes (utf8Bytes s)

/-! ### `synthetic_github_user_id` (auth.rs lines 165-171) -/

/-- Translation of `synthetic_github_user_id`: first 4 digest bytes as a
big-endian `i32`, sign bit cleared, zero replaced by 1. Interpreting the four
bytes as an `i32` and clearing the sign bit with `& 0x7fff_ffff` yields
exactly the low 31 bits of the big-endian value, written here as `% 2^31`. -/
def synthetic_github_user_id (github_login : String) : Int :=
  let digest := sha256 github_login
  let n : Nat := ((digest.take 4).foldl (fun a x => a * 256 + x) 0)
  let id : Nat := n % 2147483648
  if id = 0 then 1 else (id : Int)

/-! ### Identity store and request-level types -/

/-- The parameters the code passes to `Database::create_user`. -/
structure NewUserParams where
  github_login : String
  github_user_id : Int
deriving DecidableEq

/-- A durable identity record (`db::User`): numeric row id, handle, numeric
provider id, email, optional display name, administrator flag. -/
structure User where
  id : Int
  github_login : String
  github_user_id : Int
  email : String
  name : Option String
  admin : Bool
deriving DecidableEq

/-- Modelled from the spec: the Identity Store Gateway (§4.4) — a durable user
table keyed by numeric ID and handle, with lookup returning an empty result
when absent and creation inserting a fresh record. The store itself
(`db::Database`) is outside the given sources. -/
structure Db where
  users : List User
  next_id : Int
deriving DecidableEq

/-- Modelled from the spec: `get_by_handle` — lookup by (already normalized)
handle, case-sensitive, `none` when absent. -/
def Db.get_user_by_github_login (db : Db) (login : String) : Option User :=
  db.users.find? (fun u => u.github_login == login)

/-- Modelled from the spec: `get_by_id` — lookup by numeric ID, `none` when
absent. -/
def Db.get_user_by_id (db : Db) (id : Int) : Option User :=
  db.users.find? (fun u => u.id == id)

/-- Modelled from the spec: `create` — insert a record with the given email,
name, admin flag and parameters, assigning a fresh row id. -/
def Db.create_user (db : Db) (email : String) (name : Option String)
    (admin : Bool) (params : NewUserParams) : Db :=
  { users := db.users ++
      [{ id := db.next_id, github_login := params.github_login,
         github_user_id := params.github_user_id, email := email,
         name := name, admin := admin }],
    next_id := db.next_id + 1 }

/-- A record of which identity-store operations a request performed. -/
inductive DbOp where
  | getUserById (id : Int)
  | getUserByLogin (login : String)
  | createUser (login : String)
deriving DecidableEq

/-- The error taxonomy. `http` is `Error::http(status, message)`;
`internal` is modelled from the spec (§7): an error propagated with `?` from
an `anyhow` context is an `Internal` error surfaced at the generic boundary,
carrying the context message, distinct from the typed HTTP rejections. -/
inductive Err where
  | http (status : Nat) (msg : String)
  | internal (msg : String)
deriving DecidableEq

/-- `rpc::Principal` as used here: a resolved user attached to the request. -/
inductive Principal where
  | user (u : User)
deriving DecidableEq

/-- The body of a successful authority response
(`cloud_api_types::GetAuthenticatedUserResponse`): the authenticated user's
numeric id. -/
structure AuthenticatedUserBody where
  user_id : Int
deriving DecidableEq

/-- Outcome of the outbound verification call, as distinguished by the code:
the `send()` may fail (network error), `error_for_status()` may reject the
response, the JSON body may fail to parse, or a body is obtained. -/
inductive VerifyOutcome where
  | sendError
  | errorStatus
  | parseError
  | ok (body : AuthenticatedUserBody)
deriving DecidableEq

/-- HTTP status codes used by the code. -/
def UNAUTHORIZED : Nat := 401

def BAD_REQUEST : Nat := 400

/-! ### `get_or_create_user_for_trusted_login` (auth.rs lines 140-163) -/

/-- Translation of `get_or_create_user_for_trusted_login`: look the handle up;
if absent, create with email `<login>@example.com`, no name, `admin = false`
and the synthetic id, then look up again. Returns the result, the updated
store, and the operations performed. -/
def get_or_create_user_for_trusted_login (github_login : String) (db : Db) :
    Except Err User × Db × List DbOp :=
  match db.get_user_by_github_login github_login with
  | some user => (.ok user, db, [.getUserByLogin github_login])
  | none =>
    let db' := db.create_user (github_login ++ "@example.com") none false
      { github_login := github_login,
        github_user_id := synthetic_github_user_id github_login }
    match db'.get_user_by_github_login github_login with
    | some user =>
      (.ok user, db',
        [.getUserByLogin github_login, .createUser github_login,
         .getUserByLogin github_login])
    | none =>
      (.error (.internal ("user " ++ github_login ++ " not found after create")),
        db',
        [.getUserByLogin github_login, .createUser github_login,
         .getUserByLogin github_login])

/-- Lift the trusted-login result into the middleware's result type: a found
or created user becomes the request's `Principal`. -/
def liftTrusted : Except Err User × Db × List DbOp →
    Except Err Principal × Db × List DbOp
  | (.ok u, db, ops) => (.ok (.user u), db, ops)
  | (.error e, db, ops) => (.error e, db, ops)

/-! ### `validate_header` (auth.rs lines 22-121) -/

/-- Translation of `validate_header`. Inputs: the authorization header (\
`none` covers both an absent header and one that is not readable as a
string), the external verification client as a function of the claimed id
and access token (modelling the outbound call built from them), the service
configuration (`config.api_token`), and the identity store. Output: the
resolved principal or classified error, the resulting store, and the store
operations performed. -/
def validate_header (header : Option String)
    (verify : Int → String → VerifyOutcome) (api_token : String) (db : Db) :
    Except Err Principal × Db × List DbOp :=
  match header with
  | none => (.error (.http UNAUTHORIZED "missing authorization header"), db, [])
  | some h =>
    let toks := splitWhitespace h
    let first := toks.headD ""
    if first = "dev-server-token" then
      (.error (.http UNAUTHORIZED
        "Dev servers were removed in Zed 0.157 please upgrade to SSH remoting"),
        db, [])
    else
      match toks[1]? with
      | none =>
        (.error (.http BAD_REQUEST "missing access token in authorization header"),
          db, [])
      | some access_token =>
        match parse_i32 first with
        | some user_id =>
          match verify user_id access_token with
          | .sendError => (.error (.internal "failed to validate access token"), db, [])
          | .errorStatus => (.error (.http UNAUTHORIZED "invalid credentials"), db, [])
          | .parseError => (.error (.internal "failed to parse response body"), db, [])
          | .ok body =>
            match db.get_user_by_id body.user_id with
            | some user =>
              (.ok (.user user), db, [.getUserById body.user_id])
            | none =>
              (.error (.internal ("user " ++ toString body.user_id ++ " not found")),
                db, [.getUserById body.user_id])
        | none =>
          let github_login := rustTrim first
          if github_login.isEmpty then
            (.error (.http BAD_REQUEST "missing user id in authorization header"),
              db, [])
          else
            let github_login := toAsciiLower github_login
            if !is_valid_github_login github_login then
              (.error (.http BAD_REQUEST
                "invalid github login in authorization header"), db, [])
            else
              match stripMarker "ADMIN_TOKEN:" access_token with
              | none =>
                (.error (.http UNAUTHORIZED "invalid credentials"), db, [])
              | some admin_token =>
                if api_token != admin_token then
                  (.error (.http UNAUTHORIZED "invalid credentials"), db, [])
                else
                  liftTrusted (get_or_create_user_for_trusted_login github_login db)

/-- The record the bootstrap path inserts for a new handle (the arguments
`get_or_create_user_for_trusted_login` passes to `create_user`, placed at the
fresh row id). -/
def newTrustedUser (login : String) (db : Db) : User :=
  { id := db.next_id, github_login := login,
    github_user_id := synthetic_github_user_id login,
    email := login ++ "@example.com", name := none, admin := false }

/-- Number of records of the store carrying the given handle. -/
def loginCount (db : Db) (login : String) : Nat :=
  (db.users.filter (fun u => u.github_login == login)).length

/-- Equality of request outcomes is decidable (used to evaluate the model at
concrete inputs). -/
instance exceptDecEq {ε α : Type} [DecidableEq ε] [DecidableEq α] :
    DecidableEq (Except ε α) := fun x y =>
  match x, y with
  | .ok a, .ok b =>
    if h : a = b then isTrue (by rw [h])
    else isFalse (fun he => h (Except.ok.inj he))
  | .error a, .error b =>
    if h : a = b then isTrue (by rw [h])
    else isFalse (fun he => h (Except.error.inj he))
  | .ok _, .error _ => isFalse (fun he => Except.noConfusion he)
  | .error _, .ok _ => isFalse (fun he => Except.noConfusion he)

/-- A concrete store fixture holding one identity for the handle "alice". -/
def aliceUser : User :=
  { id := 1, github_login := "alice", github_user_id := 735577801,
    email := "alice@example.com", name := none, admin := false }

/-- A store with just `aliceUser`. -/
def aliceDb : Db := { users := [aliceUser], next_id := 2 }

/-- An empty store. -/
def emptyDb : Db := { users := [], next_id := 1 }

/-! ### Reduction lemmas for the two credential paths -/

/-- On a header whose first token parses as an `i32`, `validate_header` takes
the numeric-credential path, branching only on the verification outcome. -/
lemma validate_header_numeric (h s tok : String) (rest : List String)
    (verify : Int → String → VerifyOutcome) (api : String) (db : Db) (claimed : Int)
    (hsplit : splitWhitespace h = s :: tok :: rest)
    (hparse : parse_i32 s = some claimed) :
    validate_header (some h) verify api db =
      (match verify claimed tok with
       | .sendError => (.error (.internal "failed to validate access token"), db, [])
       | .errorStatus => (.error (.http UNAUTHORIZED "invalid credentials"), db, [])
       | .parseError => (.error (.internal "failed to parse response body"), db, [])
       | .ok body =>
         match db.get_user_by_id body.user_id with
         | some user => (.ok (.user user), db, [.getUserById body.user_id])
         | none =>
           (.error (.internal ("user " ++ toString body.user_id ++ " not found")),
             db, [.getUserById body.user_id])) := by
  have hne : s ≠ "dev-server-token" := by
    intro he
    rw [he, show parse_i32 "dev-server-token" = none from by decide] at hparse
    exact Option.noConfusion hparse
  simp only [validate_header, hsplit, List.headD_cons]
  rw [if_neg hne]
  simp only [List.getElem?_cons_succ, List.getElem?_cons_zero]
  rw [hparse]

/-- On a header whose first token is a non-numeric, syntactically valid handle,
`validate_header` takes the handle path, branching only on the secret. -/
lemma validate_header_handle (h s tok : String) (rest : List String)
    (verify : Int → String → VerifyOutcome) (api : String) (db : Db)
    (hsplit : splitWhitespace h = s :: tok :: rest)
    (hne : s ≠ "dev-server-token")
    (hparse : parse_i32 s = none)
    (hvalid : is_valid_github_login (toAsciiLower (rustTrim s)) = true) :
    validate_header (some h) verify api db =
      (match stripMarker "ADMIN_TOKEN:" tok with
       | none => (.error (.http UNAUTHORIZED "invalid credentials"), db, [])
       | some admin_token =>
         if api != admin_token then
           (.error (.http UNAUTHORIZED "invalid credentials"), db, [])
         else
           liftTrusted (get_or_create_user_for_trusted_login
             (toAsciiLower (rustTrim s)) db)) := by
  have hempty : (rustTrim s).isEmpty = false := by
    rw [Bool.eq_false_iff]
    intro he
    rw [String.isEmpty_iff] at he
    rw [he] at hvalid
    exact absurd hvalid (by decide)
  simp only [validate_header, hsplit, List.headD_cons]
  rw [if_neg hne]
  simp only [List.getElem?_cons_succ, List.getElem?_cons_zero]
  rw [hparse, hempty]
  simp only [Bool.false_eq_true, if_false, hvalid, Bool.not_true, if_false]

/-! ### Lemmas about `get_or_create_user_for_trusted_login` -/

lemma goc_found (login : String) (db : Db) (u : User)
    (hfind : db.get_user_by_github_login login = some u) :
    get_or_create_user_for_trusted_login login db =
      (.ok u, db, [.getUserByLogin login]) := by
  simp only [get_or_create_user_for_trusted_login, hfind]

lemma goc_not_found (login : String) (db : Db)
    (hfind : db.get_user_by_github_login login = none) :
    get_or_create_user_for_trusted_login login db =
      (.ok (newTrustedUser login db),
        ⟨db.users ++ [newTrustedUser login db], db.next_id + 1⟩,
        [.getUserByLogin login, .createUser login, .getUserByLogin login]) := by
  have hfind' : db.users.find? (fun u => u.github_login == login) = none := hfind
  simp only [get_or_create_user_for_trusted_login, hfind, Db.create_user,
    Db.get_user_by_github_login, List.find?_append, hfind', Option.none_or,
    List.find?_cons]
  simp [newTrustedUser]

/-- Running the trusted-login resolution twice in a row yields the same user,
the second run finding the record by lookup alone. -/
lemma goc_twice (login : String) (db : Db) :
    ∃ u : User,
      (get_or_create_user_for_trusted_login login db).1 = .ok u ∧
      get_or_create_user_for_trusted_login login
        (get_or_create_user_for_trusted_login login db).2.1 =
        (.ok u, (get_or_create_user_for_trusted_login login db).2.1,
          [.getUserByLogin login]) := by
  cases hfind : db.get_user_by_github_login login with
  | some u =>
    refine ⟨u, ?_, ?_⟩
    · rw [goc_found login db u hfind]
    · rw [goc_found login db u hfind]
      exact goc_found login db u hfind
  | none =>
    refine ⟨newTrustedUser login db, ?_, ?_⟩
    · rw [goc_not_found login db hfind]
    · rw [goc_not_found login db hfind]
      refine goc_found login _ _ ?_
      have hfind' : db.users.find? (fun u => u.github_login == login) = none := hfind
      show (db.users ++ [newTrustedUser login db]).find?
        (fun u => u.github_login == login) = some (newTrustedUser login db)
      rw [List.find?_append, hfind', Option.none_or]
      simp [newTrustedUser]

/-- When the store held at most one record for the handle, it holds exactly
one after a trusted-login resolution. -/
lemma goc_count (login : String) (db : Db) (hwf : loginCount db login ≤ 1) :
    loginCount (get_or_create_user_for_trusted_login login db).2.1 login = 1 := by
  cases hfind : db.get_user_by_github_login login with
  | some u =>
    rw [goc_found login db u hfind]
    have hmem := List.mem_of_find?_eq_some hfind
    have hp := List.find?_some hfind
    have hin : u ∈ db.users.filter (fun v => v.github_login == login) :=
      List.mem_filter.mpr ⟨hmem, hp⟩
    have hpos : 0 < loginCount db login := by
      unfold loginCount
      refine List.length_pos.mpr (fun he => ?_)
      rw [he] at hin
      exact (List.not_mem_nil u) hin
    show loginCount db login = 1
    unfold loginCount at hwf hpos ⊢
    omega
  | none =>
    rw [goc_not_found login db hfind]
    show loginCount ⟨db.users ++ [newTrustedUser login db], db.next_id + 1⟩ login = 1
    have hfind' : db.users.find? (fun u => u.github_login == login) = none := hfind
    have hnil : db.users.filter (fun u => u.github_login == login) = [] :=
      List.filter_eq_nil_iff.mpr (by
        intro a ha
        have := List.find?_eq_none.mp hfind' a ha
        simpa using this)
    unfold loginCount
    simp only [List.filter_append, hnil, List.nil_append]
    simp [newTrustedUser]

/-- `liftTrusted` does not touch the store or the operation log. -/
lemma liftTrusted_snd (x : Except Err User × Db × List DbOp) :
    (liftTrusted x).2 = x.2 := by
  obtain ⟨r, db, ops⟩ := x
  cases r <;> rfl

/-- `liftTrusted` turns a found user into the request's principal. -/
lemma liftTrusted_ok (x : Except Err User × Db × List DbOp) (u : User)
    (h : x.1 = .ok u) : (liftTrusted x).1 = .ok (.user u) := by
  obtain ⟨r, db, ops⟩ := x
  cases r with
  | ok v => cases h; rfl
  | error e => exact Except.noConfusion h

/-! ### Lemmas about `is_valid_github_login` -/

lemma alnum_ascii (c : Char) (h : c.isAlphanum = true) : c.toNat < 128 := by
  simp [Char.isAlphanum, Char.isAlpha, Char.isDigit, Char.isUpper, Char.isLower] at h
  rcases h with (⟨h1, h2⟩ | ⟨h1, h2⟩) | ⟨h1, h2⟩ <;>
    exact Nat.lt_of_le_of_lt (UInt32.toNat_le_of_le (by decide) h2) (by decide)

lemma one_le_charUtf8Size (c : Char) : 1 ≤ charUtf8Size c := by
  unfold charUtf8Size
  split
  · omega
  · split
    · omega
    · split <;> omega

lemma length_le_utf8 (l : List Char) : l.length ≤ (l.map charUtf8Size).sum := by
  induction l with
  | nil => simp
  | cons c cs ih =>
    simp only [List.map_cons, List.sum_cons, List.length_cons]
    have := one_le_charUtf8Size c
    omega

lemma utf8_eq_length (l : List Char) (h : ∀ c ∈ l, c.toNat < 128) :
    (l.map charUtf8Size).sum = l.length := by
  induction l with
  | nil => simp
  | cons c cs ih =>
    simp only [List.map_cons, List.sum_cons, List.length_cons]
    rw [ih (fun d hd => h d (List.mem_cons_of_mem c hd))]
    have hc : charUtf8Size c = 1 := by
      unfold charUtf8Size
      rw [if_pos (h c (List.mem_cons_self c cs))]
    omega

/-- Characterization of the login validator in terms of the character list. -/
lemma login_validator_iff (s : String) :
    is_valid_github_login s = true ↔
      ∃ c rest, s.toList = c :: rest ∧ s.toList.length ≤ 39 ∧
        c.isAlphanum = true ∧
        ∀ ch ∈ rest, (ch.isAlphanum || ch == '-') = true := by
  have hlen_eq : utf8Len s = (s.toList.map charUtf8Size).sum := rfl
  constructor
  · intro hv
    unfold is_valid_github_login at hv
    by_cases hlen : utf8Len s > 39
    · rw [if_pos hlen] at hv
      exact absurd hv (by simp)
    · rw [if_neg hlen] at hv
      cases hl : s.toList with
      | nil => rw [hl] at hv; simp at hv
      | cons c rest =>
        rw [hl] at hv
        dsimp only at hv
        by_cases hc : c.isAlphanum
        · rw [hc] at hv
          simp only [Bool.not_true, Bool.false_eq_true, if_false] at hv
          refine ⟨c, rest, rfl, ?_, hc, List.all_eq_true.mp hv⟩
          have h1 := length_le_utf8 s.toList
          rw [← hlen_eq] at h1
          rw [hl] at h1
          omega
        · rw [Bool.eq_false_iff.mpr hc] at hv
          simp at hv
  · rintro ⟨c, rest, hl, hlen, hal, hrest⟩
    have hascii : ∀ ch ∈ s.toList, ch.toNat < 128 := by
      intro ch hch
      rw [hl] at hch
      rcases List.mem_cons.mp hch with rfl | hm
      · exact alnum_ascii ch hal
      · rcases Bool.or_eq_true _ _ |>.mp (hrest ch hm) with h1 | h1
        · exact alnum_ascii ch h1
        · rw [show ch = '-' from beq_iff_eq.mp h1]
          decide
    have hlen' : ¬ utf8Len s > 39 := by
      rw [hlen_eq, utf8_eq_length s.toList hascii]
      omega
    unfold is_valid_github_login
    rw [if_neg hlen', hl]
    dsimp only
    rw [hal]
    simp only [Bool.not_true, Bool.false_eq_true, if_false]
    exact List.all_eq_true.mpr hrest

/-! ### The claims -/

/-- C1: on the numeric-credential path, when external verification succeeds,
the resolver looks up the local Identity using the numeric ID asserted by the
authority's response body — never the caller-claimed subject from the
authorization header — for every pair of claimed and asserted IDs, including
pairs where they differ; the store is otherwise untouched. -/
theorem claim_C1_numeric_path_trusts_asserted_id
    (h s tok : String) (rest : List String)
    (verify : Int → String → VerifyOutcome) (api : String) (db : Db)
    (claimed : Int) (body : AuthenticatedUserBody)
    (hsplit : splitWhitespace h = s :: tok :: rest)
    (hparse : parse_i32 s = some claimed)
    (hok : verify claimed tok = .ok body) :
    (validate_header (some h) verify api db).2.2 = [DbOp.getUserById body.user_id] ∧
    (validate_header (some h) verify api db).2.1 = db := by
  rw [validate_header_numeric h s tok rest verify api db claimed hsplit hparse, hok]
  dsimp only
  cases hdb : db.get_user_by_id body.user_id <;> exact ⟨rfl, rfl⟩

/-- Witness for C1: claimed id 1, asserted id 2 — the lookup uses 2. -/
theorem claim_C1_witness :
    splitWhitespace "1 tok" = ["1", "tok"] ∧
    parse_i32 "1" = some 1 ∧
    (fun (_ : Int) (_ : String) => VerifyOutcome.ok ⟨2⟩) 1 "tok" =
      VerifyOutcome.ok ⟨2⟩ ∧
    ((validate_header (some "1 tok") (fun _ _ => VerifyOutcome.ok ⟨2⟩) "s"
        emptyDb).2.2 = [DbOp.getUserById (2 : Int)] ∧
      (validate_header (some "1 tok") (fun _ _ => VerifyOutcome.ok ⟨2⟩) "s"
        emptyDb).2.1 = emptyDb) :=
  ⟨by decide, by decide, rfl,
    claim_C1_numeric_path_trusts_asserted_id "1 tok" "1" "tok" []
      (fun _ _ => VerifyOutcome.ok ⟨2⟩) "s" emptyDb 1 ⟨2⟩ (by decide) (by decide) rfl⟩

/-- C2: on the handle path with a valid non-empty handle, a secret without the
`ADMIN_TOKEN:` marker is rejected as Unauthenticated, a remainder differing
from the configured secret is rejected as Unauthenticated, and identity
resolution proceeds exactly when the marker is present and the remainder
equals the configured secret. -/
theorem claim_C2_handle_secret_gate (h s tok : String) (rest : List String)
    (verify : Int → String → VerifyOutcome) (api : String) (db : Db)
    (hsplit : splitWhitespace h = s :: tok :: rest)
    (hne : s ≠ "dev-server-token")
    (hparse : parse_i32 s = none)
    (hvalid : is_valid_github_login (toAsciiLower (rustTrim s)) = true) :
    (stripMarker "ADMIN_TOKEN:" tok = none →
      validate_header (some h) verify api db =
        (.error (.http UNAUTHORIZED "invalid credentials"), db, [])) ∧
    (∀ r, stripMarker "ADMIN_TOKEN:" tok = some r → r ≠ api →
      validate_header (some h) verify api db =
        (.error (.http UNAUTHORIZED "invalid credentials"), db, [])) ∧
    (∀ r, stripMarker "ADMIN_TOKEN:" tok = some r → r = api →
      validate_header (some h) verify api db =
        liftTrusted (get_or_create_user_for_trusted_login
          (toAsciiLower (rustTrim s)) db)) := by
  rw [validate_header_handle h s tok rest verify api db hsplit hne hparse hvalid]
  refine ⟨?_, ?_, ?_⟩
  · intro hm; rw [hm]
  · intro r hm hner
    rw [hm]
    dsimp only
    rw [if_pos (bne_iff_ne.mpr (Ne.symm hner))]
  · intro r hm hr
    subst hr
    rw [hm]
    dsimp only
    rw [if_neg (by simp)]

/-- Witness for C2 at handle "Alice", secret "ADMIN_TOKEN:sec". -/
theorem claim_C2_witness :
    splitWhitespace "Alice ADMIN_TOKEN:sec" = ["Alice", "ADMIN_TOKEN:sec"] ∧
    "Alice" ≠ "dev-server-token" ∧
    parse_i32 "Alice" = none ∧
    is_valid_github_login (toAsciiLower (rustTrim "Alice")) = true ∧
    (∀ r, stripMarker "ADMIN_TOKEN:" "ADMIN_TOKEN:sec" = some r → r = "sec" →
      validate_header (some "Alice ADMIN_TOKEN:sec")
        (fun _ _ => VerifyOutcome.errorStatus) "sec" aliceDb =
        liftTrusted (get_or_create_user_for_trusted_login
          (toAsciiLower (rustTrim "Alice")) aliceDb)) :=
  ⟨by decide, by decide, by decide, by decide,
    (claim_C2_handle_secret_gate "Alice ADMIN_TOKEN:sec" "Alice" "ADMIN_TOKEN:sec" []
      (fun _ _ => VerifyOutcome.errorStatus) "sec" aliceDb
      (by decide) (by decide) (by decide) (by decide)).2.2⟩

/-- Counterexample to C3 as stated: a network error during the outbound call
("42 tok", verification client fails on send) does not produce the
Unauthenticated "invalid credentials" rejection — it propagates as an
internal error carrying the "failed to validate access token" context. -/
theorem claim_C3_counterexample :
    (validate_header (some "42 tok") (fun _ _ => VerifyOutcome.sendError) "s"
      emptyDb).1 ≠
      Except.error (Err.http UNAUTHORIZED "invalid credentials") := by decide

/-- C3 (amended): on the numeric path, a non-success authority response yields
Unauthenticated "invalid credentials"; a network error or an unparseable body
propagates as an internal error carrying its context message instead; in all
three failure modes the identity store is untouched and no store operation
occurs. -/
theorem claim_C3_numeric_failure_modes (h s tok : String) (rest : List String)
    (verify : Int → String → VerifyOutcome) (api : String) (db : Db)
    (claimed : Int)
    (hsplit : splitWhitespace h = s :: tok :: rest)
    (hparse : parse_i32 s = some claimed) :
    (verify claimed tok = .errorStatus →
      validate_header (some h) verify api db =
        (.error (.http UNAUTHORIZED "invalid credentials"), db, [])) ∧
    (verify claimed tok = .sendError →
      validate_header (some h) verify api db =
        (.error (.internal "failed to validate access token"), db, [])) ∧
    (verify claimed tok = .parseError →
      validate_header (some h) verify api db =
        (.error (.internal "failed to parse response body"), db, [])) := by
  rw [validate_header_numeric h s tok rest verify api db claimed hsplit hparse]
  exact ⟨fun hv => by rw [hv], fun hv => by rw [hv], fun hv => by rw [hv]⟩

/-- Witness for C3 (amended) at "7 badtok" with a rejecting authority. -/
theorem claim_C3_witness :
    splitWhitespace "7 badtok" = ["7", "badtok"] ∧
    parse_i32 "7" = some 7 ∧
    ((fun (_ : Int) (_ : String) => VerifyOutcome.errorStatus) 7 "badtok" =
        VerifyOutcome.errorStatus →
      validate_header (some "7 badtok") (fun _ _ => VerifyOutcome.errorStatus)
        "s" aliceDb =
        (.error (.http UNAUTHORIZED "invalid credentials"), aliceDb, [])) :=
  ⟨by decide, by decide,
    (claim_C3_numeric_failure_modes "7 badtok" "7" "badtok" []
      (fun _ _ => VerifyOutcome.errorStatus) "s" aliceDb 7
      (by decide) (by decide)).1⟩

/-- C4: resolve-or-create for a trusted handle login is idempotent — run twice
sequentially it returns the same user record both times (hence the same
numeric ID), the second run changes nothing, and exactly one record for the
handle exists in the store afterward (given the store held at most one
before, the store's uniqueness invariant). -/
theorem claim_C4_idempotent_bootstrap (login : String) (db : Db)
    (hwf : loginCount db login ≤ 1) :
    ∃ u : User,
      (get_or_create_user_for_trusted_login login db).1 = .ok u ∧
      (get_or_create_user_for_trusted_login login
        (get_or_create_user_for_trusted_login login db).2.1).1 = .ok u ∧
      (get_or_create_user_for_trusted_login login
        (get_or_create_user_for_trusted_login login db).2.1).2.1 =
        (get_or_create_user_for_trusted_login login db).2.1 ∧
      loginCount (get_or_create_user_for_trusted_login login db).2.1 login = 1 := by
  obtain ⟨u, h1, h2⟩ := goc_twice login db
  exact ⟨u, h1, by rw [h2], by rw [h2], goc_count login db hwf⟩

/-- Witness for C4 at the handle "alice" on a store already holding it. -/
theorem claim_C4_witness :
    loginCount aliceDb "alice" ≤ 1 ∧
    ∃ u : User,
      (get_or_create_user_for_trusted_login "alice" aliceDb).1 = .ok u ∧
      (get_or_create_user_for_trusted_login "alice"
        (get_or_create_user_for_trusted_login "alice" aliceDb).2.1).1 = .ok u ∧
      (get_or_create_user_for_trusted_login "alice"
        (get_or_create_user_for_trusted_login "alice" aliceDb).2.1).2.1 =
        (get_or_create_user_for_trusted_login "alice" aliceDb).2.1 ∧
      loginCount (get_or_create_user_for_trusted_login "alice" aliceDb).2.1
        "alice" = 1 :=
  ⟨by decide, claim_C4_idempotent_bootstrap "alice" aliceDb (by decide)⟩

/-- C5: two handle credentials whose handles agree after lowercasing (in
particular, handles differing only in letter case), presented with the same
valid shared secret, resolve to the identical Identity: the first request
succeeds with some user and the second request, run on the resulting store,
succeeds with the very same user. -/
theorem claim_C5_case_normalization
    (h1 h2 s1 s2 tok1 tok2 : String) (r1 r2 : List String)
    (verify : Int → String → VerifyOutcome) (api : String) (db : Db)
    (hsplit1 : splitWhitespace h1 = s1 :: tok1 :: r1)
    (hsplit2 : splitWhitespace h2 = s2 :: tok2 :: r2)
    (hne1 : s1 ≠ "dev-server-token") (hne2 : s2 ≠ "dev-server-token")
    (hp1 : parse_i32 s1 = none) (hp2 : parse_i32 s2 = none)
    (hcase : toAsciiLower (rustTrim s1) = toAsciiLower (rustTrim s2))
    (hvalid : is_valid_github_login (toAsciiLower (rustTrim s1)) = true)
    (hsec1 : stripMarker "ADMIN_TOKEN:" tok1 = some api)
    (hsec2 : stripMarker "ADMIN_TOKEN:" tok2 = some api) :
    ∃ u : User,
      (validate_header (some h1) verify api db).1 = .ok (.user u) ∧
      (validate_header (some h2) verify api
        (validate_header (some h1) verify api db).2.1).1 = .ok (.user u) := by
  have e1 := validate_header_handle h1 s1 tok1 r1 verify api db hsplit1 hne1 hp1 hvalid
  rw [hsec1] at e1
  dsimp only at e1
  rw [bne_self_eq_false] at e1
  simp only [Bool.false_eq_true, if_false] at e1
  obtain ⟨u, hu1, hu2⟩ := goc_twice (toAsciiLower (rustTrim s1)) db
  refine ⟨u, ?_, ?_⟩
  · rw [e1]
    exact liftTrusted_ok _ u hu1
  · have hvalid2 : is_valid_github_login (toAsciiLower (rustTrim s2)) = true := by
      rw [← hcase]; exact hvalid
    have e2 := validate_header_handle h2 s2 tok2 r2 verify api
      ((validate_header (some h1) verify api db).2.1) hsplit2 hne2 hp2 hvalid2
    rw [hsec2] at e2
    dsimp only at e2
    rw [bne_self_eq_false] at e2
    simp only [Bool.false_eq_true, if_false] at e2
    rw [e2, ← hcase]
    have hdb1 : (validate_header (some h1) verify api db).2.1 =
        (get_or_create_user_for_trusted_login (toAsciiLower (rustTrim s1)) db).2.1 := by
      rw [e1, liftTrusted_snd]
    rw [hdb1]
    exact liftTrusted_ok _ u (by rw [hu2])

/-- Witness for C5 at "Alice" / "ALICE" with shared secret "sec". -/
theorem claim_C5_witness :
    splitWhitespace "Alice ADMIN_TOKEN:sec" = ["Alice", "ADMIN_TOKEN:sec"] ∧
    splitWhitespace "ALICE ADMIN_TOKEN:sec" = ["ALICE", "ADMIN_TOKEN:sec"] ∧
    "Alice" ≠ "dev-server-token" ∧ "ALICE" ≠ "dev-server-token" ∧
    parse_i32 "Alice" = none ∧ parse_i32 "ALICE" = none ∧
    toAsciiLower (rustTrim "Alice") = toAsciiLower (rustTrim "ALICE") ∧
    is_valid_github_login (toAsciiLower (rustTrim "Alice")) = true ∧
    stripMarker "ADMIN_TOKEN:" "ADMIN_TOKEN:sec" = some "sec" ∧
    ∃ u : User,
      (validate_header (some "Alice ADMIN_TOKEN:sec")
        (fun _ _ => VerifyOutcome.errorStatus) "sec" aliceDb).1 = .ok (.user u) ∧
      (validate_header (some "ALICE ADMIN_TOKEN:sec")
        (fun _ _ => VerifyOutcome.errorStatus) "sec"
        (validate_header (some "Alice ADMIN_TOKEN:sec")
          (fun _ _ => VerifyOutcome.errorStatus) "sec" aliceDb).2.1).1 =
        .ok (.user u) :=
  ⟨by decide, by decide, by decide, by decide, by decide, by decide, by decide,
    by decide, by decide,
    claim_C5_case_normalization "Alice ADMIN_TOKEN:sec" "ALICE ADMIN_TOKEN:sec"
      "Alice" "ALICE" "ADMIN_TOKEN:sec" "ADMIN_TOKEN:sec" [] []
      (fun _ _ => VerifyOutcome.errorStatus) "sec" aliceDb
      (by decide) (by decide) (by decide) (by decide) (by decide) (by decide)
      (by decide) (by decide) (by decide) (by decide)⟩

/-- C6: the login validator returns true exactly when the handle is non-empty,
at most 39 characters, starts with an alphanumeric character and continues
with alphanumeric characters or hyphens; in particular it rejects the empty
string, length 40, a leading hyphen, and embedded spaces or underscores. -/
theorem claim_C6_login_validator (s : String) :
    (is_valid_github_login s = true ↔
      ∃ c rest, s.toList = c :: rest ∧ s.toList.length ≤ 39 ∧
        c.isAlphanum = true ∧
        ∀ ch ∈ rest, (ch.isAlphanum || ch == '-') = true) ∧
    is_valid_github_login "" = false ∧
    is_valid_github_login (String.mk (List.replicate 40 'a')) = false ∧
    is_valid_github_login (String.mk (List.replicate 39 'a')) = true ∧
    is_valid_github_login "-a" = false ∧
    is_valid_github_login "a b" = false ∧
    is_valid_github_login "a_b" = false :=
  ⟨login_validator_iff s, by decide, by decide, by decide, by decide,
    by decide, by decide⟩

/-- C7: the synthetic ID generator is deterministic and never returns 0; its
value always lies in the positive signed 32-bit range (sign bit cleared, zero
replaced by 1). -/
theorem claim_C7_synthetic_id (s : String) :
    synthetic_github_user_id s = synthetic_github_user_id s ∧
    synthetic_github_user_id s ≠ 0 ∧
    0 < synthetic_github_user_id s ∧
    synthetic_github_user_id s ≤ 2147483647 := by
  refine ⟨rfl, ?_⟩
  unfold synthetic_github_user_id
  dsimp only
  generalize List.foldl (fun a x => a * 256 + x) 0 (List.take 4 (sha256 s)) = n
  have hlt : n % 2147483648 < 2147483648 := Nat.mod_lt _ (by norm_num)
  split
  next h => refine ⟨by omega, by omega, by omega⟩
  next h => refine ⟨by omega, by omega, by omega⟩

/-- C8: a credential whose subject token is the literal "dev-server-token" is
rejected with the fixed deprecation message, regardless of what follows it —
any secret, or none at all. -/
theorem claim_C8_dev_server_token_rejected (h : String) (rest : List String)
    (verify : Int → String → VerifyOutcome) (api : String) (db : Db)
    (hsplit : splitWhitespace h = "dev-server-token" :: rest) :
    validate_header (some h) verify api db =
      (.error (.http UNAUTHORIZED
        "Dev servers were removed in Zed 0.157 please upgrade to SSH remoting"),
        db, []) := by
  simp only [validate_header, hsplit, List.headD_cons]
  exact if_pos trivial

/-- Witness for C8: bare "dev-server-token" with no secret at all. -/
theorem claim_C8_witness :
    splitWhitespace "dev-server-token" = ["dev-server-token"] ∧
    validate_header (some "dev-server-token")
      (fun _ _ => VerifyOutcome.errorStatus) "sec" aliceDb =
      (.error (.http UNAUTHORIZED
        "Dev servers were removed in Zed 0.157 please upgrade to SSH remoting"),
        aliceDb, []) :=
  ⟨by decide,
    claim_C8_dev_server_token_rejected "dev-server-token" []
      (fun _ _ => VerifyOutcome.errorStatus) "sec" aliceDb (by decide)⟩

/-- Counterexample to C9 as stated: the header "dev-server-token" contains a
subject token and no secret token after it, yet the resolver does not return
the BadRequest missing-token rejection (it returns the deprecation
rejection). -/
theorem claim_C9_counterexample :
    splitWhitespace "dev-server-token" = ["dev-server-token"] ∧
    (validate_header (some "dev-server-token")
      (fun _ _ => VerifyOutcome.errorStatus) "sec" emptyDb).1 ≠
      Except.error (Err.http BAD_REQUEST
        "missing access token in authorization header") :=
  ⟨by decide, by decide⟩

/-- C9 (amended): an absent (or unreadable) header yields the Unauthenticated
missing-header rejection; a header whose single token is a subject other than
the legacy marker "dev-server-token", with no secret token after it, yields
the BadRequest missing-token rejection. -/
theorem claim_C9_header_parsing (verify : Int → String → VerifyOutcome)
    (api : String) (db : Db) :
    validate_header none verify api db =
      (.error (.http UNAUTHORIZED "missing authorization header"), db, []) ∧
    ∀ h s, splitWhitespace h = [s] → s ≠ "dev-server-token" →
      validate_header (some h) verify api db =
        (.error (.http BAD_REQUEST "missing access token in authorization header"),
          db, []) := by
  refine ⟨rfl, ?_⟩
  intro h s hsplit hne
  simp only [validate_header, hsplit, List.headD_cons]
  rw [if_neg hne]
  simp only [List.getElem?_cons_succ, List.getElem?_nil]

/-- Witness for C9 (amended) at the one-token header "bob". -/
theorem claim_C9_witness :
    splitWhitespace "bob" = ["bob"] ∧ "bob" ≠ "dev-server-token" ∧
    validate_header (some "bob") (fun _ _ => VerifyOutcome.errorStatus) "sec"
      aliceDb =
      (.error (.http BAD_REQUEST "missing access token in authorization header"),
        aliceDb, []) :=
  ⟨by decide, by decide,
    (claim_C9_header_parsing (fun _ _ => VerifyOutcome.errorStatus) "sec"
      aliceDb).2 "bob" "bob" (by decide) (by decide)⟩

/-- C10: the trusted-login bootstrap either leaves the store's records
unchanged or appends exactly one record, and an appended record always has
the administrator flag false and the synthesized email
"<normalized-handle>@example.com" — the bootstrap path can never create an
administrator identity. -/
theorem claim_C10_bootstrap_never_admin (login : String) (db : Db) :
    (get_or_create_user_for_trusted_login login db).2.1.users = db.users ∨
    ∃ u : User,
      (get_or_create_user_for_trusted_login login db).2.1.users = db.users ++ [u] ∧
      u.admin = false ∧ u.github_login = login ∧
      u.email = login ++ "@example.com" := by
  cases hfind : db.get_user_by_github_login login with
  | some u =>
    left
    rw [goc_found login db u hfind]
  | none =>
    right
    exact ⟨newTrustedUser login db,
      by rw [goc_not_found login db hfind], rfl, rfl, rfl⟩

end Auth
